import Mathlib

set_option maxRecDepth 1000000

/-!
Verification of the py6502emu W65C02S emulator core against its
natural-language specification.  The definitions below are shallow
embeddings of the Python source modules:

* `Py6502.Decoder`     — py6502emu/cpu/decoder.py
* `Py6502.Core`        — py6502emu/core/interrupt_types.py and interrupt_controller.py
* `Py6502.Handler`     — py6502emu/cpu/interrupt_handler.py
* `Py6502.Memory`      — py6502emu/memory/address_space.py, device_mapper.py,
                         memory_controller.py, mmu.py
* `Py6502.Cpu`         — py6502emu/cpu/registers.py and flags.py

Machine integers are modelled as `Nat` with explicit masking (`&&& 0xFF`,
`% 0x10000`) exactly where the Python source masks; Python code paths that
raise exceptions are modelled with `Except`/`Option` or as no-ops where the
source leaves state unchanged on a raise.  Statistics, logging, hooks and
history bookkeeping in the source have no effect on the verified behaviour
and are omitted from the embeddings.
-/

namespace Py6502

namespace Decoder

/-- Addressing modes, from the `AddressingMode` enum in cpu/addressing.py. -/
inductive AddressingMode where
  | IMPLICIT | ACCUMULATOR | IMMEDIATE
  | ZERO_PAGE | ZERO_PAGE_X | ZERO_PAGE_Y
  | ABSOLUTE | ABSOLUTE_X | ABSOLUTE_Y
  | INDIRECT | INDIRECT_X | INDIRECT_Y
  | INDIRECT_ZP | INDIRECT_ABS_X
  | RELATIVE | STACK
  deriving DecidableEq, Repr

/-- Instruction mnemonics, from the `InstructionType` enum in cpu/decoder.py. -/
inductive InstructionType where
  | LDA | STA | LDX | STX | LDY | STY | STZ
  | TAX | TAY | TXA | TYA | TSX | TXS
  | PHA | PLA | PHP | PLP | PHX | PHY | PLX | PLY
  | ADC | SBC | INC | DEC | INX | DEX | INY | DEY
  | AND | ORA | EOR | BIT | TRB | TSB
  | ASL | LSR | ROL | ROR
  | CMP | CPX | CPY
  | BCC | BCS | BEQ | BNE | BMI | BPL | BVC | BVS | BRA
  | JMP | JSR | RTS | RTI
  | CLC | SEC | CLI | SEI | CLD | SED | CLV
  | BRK | NOP | WAI | STP
  | BBR0 | BBR1 | BBR2 | BBR3 | BBR4 | BBR5 | BBR6 | BBR7
  | BBS0 | BBS1 | BBS2 | BBS3 | BBS4 | BBS5 | BBS6 | BBS7
  | RMB0 | RMB1 | RMB2 | RMB3 | RMB4 | RMB5 | RMB6 | RMB7
  | SMB0 | SMB1 | SMB2 | SMB3 | SMB4 | SMB5 | SMB6 | SMB7
  deriving DecidableEq, Repr

/-- Decoded instruction record, from the `InstructionInfo` NamedTuple in cpu/decoder.py. -/
structure InstructionInfo where
  opcode : Nat
  instruction : InstructionType
  addressing_mode : AddressingMode
  cycles : Nat
  length : Nat
  deriving DecidableEq, Repr

/-- Embedding of `InstructionDecoder._build_instruction_table`, part 1 of 9.
The Python method fills one dict; the entries are split into nine list
chunks in the same insertion order (keys are distinct, so dict lookup
equals association-list lookup on the concatenation). -/
def table_part_1 : List (Nat × InstructionInfo) := [
  (0xA9, ⟨0xA9, .LDA, .IMMEDIATE, 2, 2⟩),
  (0xA5, ⟨0xA5, .LDA, .ZERO_PAGE, 3, 2⟩),
  (0xB5, ⟨0xB5, .LDA, .ZERO_PAGE_X, 4, 2⟩),
  (0xAD, ⟨0xAD, .LDA, .ABSOLUTE, 4, 3⟩),
  (0xBD, ⟨0xBD, .LDA, .ABSOLUTE_X, 4, 3⟩),
  (0xB9, ⟨0xB9, .LDA, .ABSOLUTE_Y, 4, 3⟩),
  (0xA1, ⟨0xA1, .LDA, .INDIRECT_X, 6, 2⟩),
  (0xB1, ⟨0xB1, .LDA, .INDIRECT_Y, 5, 2⟩),
  (0xB2, ⟨0xB2, .LDA, .INDIRECT_ZP, 5, 2⟩),
  (0x85, ⟨0x85, .STA, .ZERO_PAGE, 3, 2⟩),
  (0x95, ⟨0x95, .STA, .ZERO_PAGE_X, 4, 2⟩),
  (0x8D, ⟨0x8D, .STA, .ABSOLUTE, 4, 3⟩),
  (0x9D, ⟨0x9D, .STA, .ABSOLUTE_X, 5, 3⟩),
  (0x99, ⟨0x99, .STA, .ABSOLUTE_Y, 5, 3⟩),
  (0x81, ⟨0x81, .STA, .INDIRECT_X, 6, 2⟩),
  (0x91, ⟨0x91, .STA, .INDIRECT_Y, 6, 2⟩),
  (0x92, ⟨0x92, .STA, .INDIRECT_ZP, 5, 2⟩),
  (0xA2, ⟨0xA2, .LDX, .IMMEDIATE, 2, 2⟩),
  (0xA6, ⟨0xA6, .LDX, .ZERO_PAGE, 3, 2⟩),
  (0xB6, ⟨0xB6, .LDX, .ZERO_PAGE_Y, 4, 2⟩),
  (0xAE, ⟨0xAE, .LDX, .ABSOLUTE, 4, 3⟩),
  (0xBE, ⟨0xBE, .LDX, .ABSOLUTE_Y, 4, 3⟩),
  (0x86, ⟨0x86, .STX, .ZERO_PAGE, 3, 2⟩),
  (0x96, ⟨0x96, .STX, .ZERO_PAGE_Y, 4, 2⟩)
]

/-- Instruction table entries, part 2 of 9 (continuation of the same Python dict). -/
def table_part_2 : List (Nat × InstructionInfo) := [
  (0x8E, ⟨0x8E, .STX, .ABSOLUTE, 4, 3⟩),
  (0xA0, ⟨0xA0, .LDY, .IMMEDIATE, 2, 2⟩),
  (0xA4, ⟨0xA4, .LDY, .ZERO_PAGE, 3, 2⟩),
  (0xB4, ⟨0xB4, .LDY, .ZERO_PAGE_X, 4, 2⟩),
  (0xAC, ⟨0xAC, .LDY, .ABSOLUTE, 4, 3⟩),
  (0xBC, ⟨0xBC, .LDY, .ABSOLUTE_X, 4, 3⟩),
  (0x84, ⟨0x84, .STY, .ZERO_PAGE, 3, 2⟩),
  (0x94, ⟨0x94, .STY, .ZERO_PAGE_X, 4, 2⟩),
  (0x8C, ⟨0x8C, .STY, .ABSOLUTE, 4, 3⟩),
  (0x64, ⟨0x64, .STZ, .ZERO_PAGE, 3, 2⟩),
  (0x74, ⟨0x74, .STZ, .ZERO_PAGE_X, 4, 2⟩),
  (0x9C, ⟨0x9C, .STZ, .ABSOLUTE, 4, 3⟩),
  (0x9E, ⟨0x9E, .STZ, .ABSOLUTE_X, 5, 3⟩),
  (0xAA, ⟨0xAA, .TAX, .IMPLICIT, 2, 1⟩),
  (0xA8, ⟨0xA8, .TAY, .IMPLICIT, 2, 1⟩),
  (0x8A, ⟨0x8A, .TXA, .IMPLICIT, 2, 1⟩),
  (0x98, ⟨0x98, .TYA, .IMPLICIT, 2, 1⟩),
  (0xBA, ⟨0xBA, .TSX, .IMPLICIT, 2, 1⟩),
  (0x9A, ⟨0x9A, .TXS, .IMPLICIT, 2, 1⟩),
  (0x48, ⟨0x48, .PHA, .IMPLICIT, 3, 1⟩),
  (0x68, ⟨0x68, .PLA, .IMPLICIT, 4, 1⟩),
  (0x08, ⟨0x08, .PHP, .IMPLICIT, 3, 1⟩),
  (0x28, ⟨0x28, .PLP, .IMPLICIT, 4, 1⟩),
  (0xDA, ⟨0xDA, .PHX, .IMPLICIT, 3, 1⟩)
]

/-- Instruction table entries, part 3 of 9 (continuation of the same Python dict). -/
def table_part_3 : List (Nat × InstructionInfo) := [
  (0xFA, ⟨0xFA, .PLX, .IMPLICIT, 4, 1⟩),
  (0x5A, ⟨0x5A, .PHY, .IMPLICIT, 3, 1⟩),
  (0x7A, ⟨0x7A, .PLY, .IMPLICIT, 4, 1⟩),
  (0x69, ⟨0x69, .ADC, .IMMEDIATE, 2, 2⟩),
  (0x65, ⟨0x65, .ADC, .ZERO_PAGE, 3, 2⟩),
  (0x75, ⟨0x75, .ADC, .ZERO_PAGE_X, 4, 2⟩),
  (0x6D, ⟨0x6D, .ADC, .ABSOLUTE, 4, 3⟩),
  (0x7D, ⟨0x7D, .ADC, .ABSOLUTE_X, 4, 3⟩),
  (0x79, ⟨0x79, .ADC, .ABSOLUTE_Y, 4, 3⟩),
  (0x61, ⟨0x61, .ADC, .INDIRECT_X, 6, 2⟩),
  (0x71, ⟨0x71, .ADC, .INDIRECT_Y, 5, 2⟩),
  (0x72, ⟨0x72, .ADC, .INDIRECT_ZP, 5, 2⟩),
  (0xE9, ⟨0xE9, .SBC, .IMMEDIATE, 2, 2⟩),
  (0xE5, ⟨0xE5, .SBC, .ZERO_PAGE, 3, 2⟩),
  (0xF5, ⟨0xF5, .SBC, .ZERO_PAGE_X, 4, 2⟩),
  (0xED, ⟨0xED, .SBC, .ABSOLUTE, 4, 3⟩),
  (0xFD, ⟨0xFD, .SBC, .ABSOLUTE_X, 4, 3⟩),
  (0xF9, ⟨0xF9, .SBC, .ABSOLUTE_Y, 4, 3⟩),
  (0xE1, ⟨0xE1, .SBC, .INDIRECT_X, 6, 2⟩),
  (0xF1, ⟨0xF1, .SBC, .INDIRECT_Y, 5, 2⟩),
  (0xF2, ⟨0xF2, .SBC, .INDIRECT_ZP, 5, 2⟩),
  (0xE6, ⟨0xE6, .INC, .ZERO_PAGE, 5, 2⟩),
  (0xF6, ⟨0xF6, .INC, .ZERO_PAGE_X, 6, 2⟩),
  (0xEE, ⟨0xEE, .INC, .ABSOLUTE, 6, 3⟩)
]

/-- Instruction table entries, part 4 of 9 (continuation of the same Python dict). -/
def table_part_4 : List (Nat × InstructionInfo) := [
  (0xFE, ⟨0xFE, .INC, .ABSOLUTE_X, 7, 3⟩),
  (0x1A, ⟨0x1A, .INC, .ACCUMULATOR, 2, 1⟩),
  (0xC6, ⟨0xC6, .DEC, .ZERO_PAGE, 5, 2⟩),
  (0xD6, ⟨0xD6, .DEC, .ZERO_PAGE_X, 6, 2⟩),
  (0xCE, ⟨0xCE, .DEC, .ABSOLUTE, 6, 3⟩),
  (0xDE, ⟨0xDE, .DEC, .ABSOLUTE_X, 7, 3⟩),
  (0x3A, ⟨0x3A, .DEC, .ACCUMULATOR, 2, 1⟩),
  (0xE8, ⟨0xE8, .INX, .IMPLICIT, 2, 1⟩),
  (0xCA, ⟨0xCA, .DEX, .IMPLICIT, 2, 1⟩),
  (0xC8, ⟨0xC8, .INY, .IMPLICIT, 2, 1⟩),
  (0x88, ⟨0x88, .DEY, .IMPLICIT, 2, 1⟩),
  (0x29, ⟨0x29, .AND, .IMMEDIATE, 2, 2⟩),
  (0x25, ⟨0x25, .AND, .ZERO_PAGE, 3, 2⟩),
  (0x35, ⟨0x35, .AND, .ZERO_PAGE_X, 4, 2⟩),
  (0x2D, ⟨0x2D, .AND, .ABSOLUTE, 4, 3⟩),
  (0x3D, ⟨0x3D, .AND, .ABSOLUTE_X, 4, 3⟩),
  (0x39, ⟨0x39, .AND, .ABSOLUTE_Y, 4, 3⟩),
  (0x21, ⟨0x21, .AND, .INDIRECT_X, 6, 2⟩),
  (0x31, ⟨0x31, .AND, .INDIRECT_Y, 5, 2⟩),
  (0x32, ⟨0x32, .AND, .INDIRECT_ZP, 5, 2⟩),
  (0x09, ⟨0x09, .ORA, .IMMEDIATE, 2, 2⟩),
  (0x05, ⟨0x05, .ORA, .ZERO_PAGE, 3, 2⟩),
  (0x15, ⟨0x15, .ORA, .ZERO_PAGE_X, 4, 2⟩),
  (0x0D, ⟨0x0D, .ORA, .ABSOLUTE, 4, 3⟩)
]

/-- Instruction table entries, part 5 of 9 (continuation of the same Python dict). -/
def table_part_5 : List (Nat × InstructionInfo) := [
  (0x1D, ⟨0x1D, .ORA, .ABSOLUTE_X, 4, 3⟩),
  (0x19, ⟨0x19, .ORA, .ABSOLUTE_Y, 4, 3⟩),
  (0x01, ⟨0x01, .ORA, .INDIRECT_X, 6, 2⟩),
  (0x11, ⟨0x11, .ORA, .INDIRECT_Y, 5, 2⟩),
  (0x12, ⟨0x12, .ORA, .INDIRECT_ZP, 5, 2⟩),
  (0x49, ⟨0x49, .EOR, .IMMEDIATE, 2, 2⟩),
  (0x45, ⟨0x45, .EOR, .ZERO_PAGE, 3, 2⟩),
  (0x55, ⟨0x55, .EOR, .ZERO_PAGE_X, 4, 2⟩),
  (0x4D, ⟨0x4D, .EOR, .ABSOLUTE, 4, 3⟩),
  (0x5D, ⟨0x5D, .EOR, .ABSOLUTE_X, 4, 3⟩),
  (0x59, ⟨0x59, .EOR, .ABSOLUTE_Y, 4, 3⟩),
  (0x41, ⟨0x41, .EOR, .INDIRECT_X, 6, 2⟩),
  (0x51, ⟨0x51, .EOR, .INDIRECT_Y, 5, 2⟩),
  (0x52, ⟨0x52, .EOR, .INDIRECT_ZP, 5, 2⟩),
  (0x24, ⟨0x24, .BIT, .ZERO_PAGE, 3, 2⟩),
  (0x2C, ⟨0x2C, .BIT, .ABSOLUTE, 4, 3⟩),
  (0x34, ⟨0x34, .BIT, .ZERO_PAGE_X, 4, 2⟩),
  (0x3C, ⟨0x3C, .BIT, .ABSOLUTE_X, 4, 3⟩),
  (0x89, ⟨0x89, .BIT, .IMMEDIATE, 2, 2⟩),
  (0x14, ⟨0x14, .TRB, .ZERO_PAGE, 5, 2⟩),
  (0x1C, ⟨0x1C, .TRB, .ABSOLUTE, 6, 3⟩),
  (0x04, ⟨0x04, .TSB, .ZERO_PAGE, 5, 2⟩),
  (0x0C, ⟨0x0C, .TSB, .ABSOLUTE, 6, 3⟩),
  (0x0A, ⟨0x0A, .ASL, .ACCUMULATOR, 2, 1⟩)
]

/-- Instruction table entries, part 6 of 9 (continuation of the same Python dict). -/
def table_part_6 : List (Nat × InstructionInfo) := [
  (0x06, ⟨0x06, .ASL, .ZERO_PAGE, 5, 2⟩),
  (0x16, ⟨0x16, .ASL, .ZERO_PAGE_X, 6, 2⟩),
  (0x0E, ⟨0x0E, .ASL, .ABSOLUTE, 6, 3⟩),
  (0x1E, ⟨0x1E, .ASL, .ABSOLUTE_X, 7, 3⟩),
  (0x4A, ⟨0x4A, .LSR, .ACCUMULATOR, 2, 1⟩),
  (0x46, ⟨0x46, .LSR, .ZERO_PAGE, 5, 2⟩),
  (0x56, ⟨0x56, .LSR, .ZERO_PAGE_X, 6, 2⟩),
  (0x4E, ⟨0x4E, .LSR, .ABSOLUTE, 6, 3⟩),
  (0x5E, ⟨0x5E, .LSR, .ABSOLUTE_X, 7, 3⟩),
  (0x2A, ⟨0x2A, .ROL, .ACCUMULATOR, 2, 1⟩),
  (0x26, ⟨0x26, .ROL, .ZERO_PAGE, 5, 2⟩),
  (0x36, ⟨0x36, .ROL, .ZERO_PAGE_X, 6, 2⟩),
  (0x2E, ⟨0x2E, .ROL, .ABSOLUTE, 6, 3⟩),
  (0x3E, ⟨0x3E, .ROL, .ABSOLUTE_X, 7, 3⟩),
  (0x6A, ⟨0x6A, .ROR, .ACCUMULATOR, 2, 1⟩),
  (0x66, ⟨0x66, .ROR, .ZERO_PAGE, 5, 2⟩),
  (0x76, ⟨0x76, .ROR, .ZERO_PAGE_X, 6, 2⟩),
  (0x6E, ⟨0x6E, .ROR, .ABSOLUTE, 6, 3⟩),
  (0x7E, ⟨0x7E, .ROR, .ABSOLUTE_X, 7, 3⟩),
  (0xC9, ⟨0xC9, .CMP, .IMMEDIATE, 2, 2⟩),
  (0xC5, ⟨0xC5, .CMP, .ZERO_PAGE, 3, 2⟩),
  (0xD5, ⟨0xD5, .CMP, .ZERO_PAGE_X, 4, 2⟩),
  (0xCD, ⟨0xCD, .CMP, .ABSOLUTE, 4, 3⟩),
  (0xDD, ⟨0xDD, .CMP, .ABSOLUTE_X, 4, 3⟩)
]

/-- Instruction table entries, part 7 of 9 (continuation of the same Python dict). -/
def table_part_7 : List (Nat × InstructionInfo) := [
  (0xD9, ⟨0xD9, .CMP, .ABSOLUTE_Y, 4, 3⟩),
  (0xC1, ⟨0xC1, .CMP, .INDIRECT_X, 6, 2⟩),
  (0xD1, ⟨0xD1, .CMP, .INDIRECT_Y, 5, 2⟩),
  (0xD2, ⟨0xD2, .CMP, .INDIRECT_ZP, 5, 2⟩),
  (0xE0, ⟨0xE0, .CPX, .IMMEDIATE, 2, 2⟩),
  (0xE4, ⟨0xE4, .CPX, .ZERO_PAGE, 3, 2⟩),
  (0xEC, ⟨0xEC, .CPX, .ABSOLUTE, 4, 3⟩),
  (0xC0, ⟨0xC0, .CPY, .IMMEDIATE, 2, 2⟩),
  (0xC4, ⟨0xC4, .CPY, .ZERO_PAGE, 3, 2⟩),
  (0xCC, ⟨0xCC, .CPY, .ABSOLUTE, 4, 3⟩),
  (0x90, ⟨0x90, .BCC, .RELATIVE, 2, 2⟩),
  (0xB0, ⟨0xB0, .BCS, .RELATIVE, 2, 2⟩),
  (0xF0, ⟨0xF0, .BEQ, .RELATIVE, 2, 2⟩),
  (0xD0, ⟨0xD0, .BNE, .RELATIVE, 2, 2⟩),
  (0x30, ⟨0x30, .BMI, .RELATIVE, 2, 2⟩),
  (0x10, ⟨0x10, .BPL, .RELATIVE, 2, 2⟩),
  (0x50, ⟨0x50, .BVC, .RELATIVE, 2, 2⟩),
  (0x70, ⟨0x70, .BVS, .RELATIVE, 2, 2⟩),
  (0x80, ⟨0x80, .BRA, .RELATIVE, 3, 2⟩),
  (0x4C, ⟨0x4C, .JMP, .ABSOLUTE, 3, 3⟩),
  (0x6C, ⟨0x6C, .JMP, .INDIRECT, 5, 3⟩),
  (0x7C, ⟨0x7C, .JMP, .INDIRECT_ABS_X, 6, 3⟩),
  (0x20, ⟨0x20, .JSR, .ABSOLUTE, 6, 3⟩),
  (0x60, ⟨0x60, .RTS, .IMPLICIT, 6, 1⟩)
]

/-- Instruction table entries, part 8 of 9 (continuation of the same Python dict). -/
def table_part_8 : List (Nat × InstructionInfo) := [
  (0x40, ⟨0x40, .RTI, .IMPLICIT, 6, 1⟩),
  (0x18, ⟨0x18, .CLC, .IMPLICIT, 2, 1⟩),
  (0x38, ⟨0x38, .SEC, .IMPLICIT, 2, 1⟩),
  (0x58, ⟨0x58, .CLI, .IMPLICIT, 2, 1⟩),
  (0x78, ⟨0x78, .SEI, .IMPLICIT, 2, 1⟩),
  (0xD8, ⟨0xD8, .CLD, .IMPLICIT, 2, 1⟩),
  (0xF8, ⟨0xF8, .SED, .IMPLICIT, 2, 1⟩),
  (0xB8, ⟨0xB8, .CLV, .IMPLICIT, 2, 1⟩),
  (0x00, ⟨0x00, .BRK, .IMPLICIT, 7, 1⟩),
  (0xEA, ⟨0xEA, .NOP, .IMPLICIT, 2, 1⟩),
  (0xCB, ⟨0xCB, .WAI, .IMPLICIT, 3, 1⟩),
  (0xDB, ⟨0xDB, .STP, .IMPLICIT, 3, 1⟩),
  (0x0F, ⟨0x0F, .BBR0, .RELATIVE, 5, 3⟩),
  (0x1F, ⟨0x1F, .BBR1, .RELATIVE, 5, 3⟩),
  (0x2F, ⟨0x2F, .BBR2, .RELATIVE, 5, 3⟩),
  (0x3F, ⟨0x3F, .BBR3, .RELATIVE, 5, 3⟩),
  (0x4F, ⟨0x4F, .BBR4, .RELATIVE, 5, 3⟩),
  (0x5F, ⟨0x5F, .BBR5, .RELATIVE, 5, 3⟩),
  (0x6F, ⟨0x6F, .BBR6, .RELATIVE, 5, 3⟩),
  (0x7F, ⟨0x7F, .BBR7, .RELATIVE, 5, 3⟩),
  (0x8F, ⟨0x8F, .BBS0, .RELATIVE, 5, 3⟩),
  (0x9F, ⟨0x9F, .BBS1, .RELATIVE, 5, 3⟩),
  (0xAF, ⟨0xAF, .BBS2, .RELATIVE, 5, 3⟩),
  (0xBF, ⟨0xBF, .BBS3, .RELATIVE, 5, 3⟩)
]

/-- Instruction table entries, part 9 of 9 (continuation of the same Python dict). -/
def table_part_9 : List (Nat × InstructionInfo) := [
  (0xCF, ⟨0xCF, .BBS4, .RELATIVE, 5, 3⟩),
  (0xDF, ⟨0xDF, .BBS5, .RELATIVE, 5, 3⟩),
  (0xEF, ⟨0xEF, .BBS6, .RELATIVE, 5, 3⟩),
  (0xFF, ⟨0xFF, .BBS7, .RELATIVE, 5, 3⟩),
  (0x07, ⟨0x07, .RMB0, .ZERO_PAGE, 5, 2⟩),
  (0x17, ⟨0x17, .RMB1, .ZERO_PAGE, 5, 2⟩),
  (0x27, ⟨0x27, .RMB2, .ZERO_PAGE, 5, 2⟩),
  (0x37, ⟨0x37, .RMB3, .ZERO_PAGE, 5, 2⟩),
  (0x47, ⟨0x47, .RMB4, .ZERO_PAGE, 5, 2⟩),
  (0x57, ⟨0x57, .RMB5, .ZERO_PAGE, 5, 2⟩),
  (0x67, ⟨0x67, .RMB6, .ZERO_PAGE, 5, 2⟩),
  (0x77, ⟨0x77, .RMB7, .ZERO_PAGE, 5, 2⟩),
  (0x87, ⟨0x87, .SMB0, .ZERO_PAGE, 5, 2⟩),
  (0x97, ⟨0x97, .SMB1, .ZERO_PAGE, 5, 2⟩),
  (0xA7, ⟨0xA7, .SMB2, .ZERO_PAGE, 5, 2⟩),
  (0xB7, ⟨0xB7, .SMB3, .ZERO_PAGE, 5, 2⟩),
  (0xC7, ⟨0xC7, .SMB4, .ZERO_PAGE, 5, 2⟩),
  (0xD7, ⟨0xD7, .SMB5, .ZERO_PAGE, 5, 2⟩),
  (0xE7, ⟨0xE7, .SMB6, .ZERO_PAGE, 5, 2⟩),
  (0xF7, ⟨0xF7, .SMB7, .ZERO_PAGE, 5, 2⟩)
]

/-- Embedding of `InstructionDecoder._build_instruction_table`: concatenation of the nine chunks, 212 entries. -/
def build_instruction_table : List (Nat × InstructionInfo) :=
  table_part_1 ++ table_part_2 ++ table_part_3 ++ table_part_4 ++ table_part_5 ++ table_part_6 ++ table_part_7 ++ table_part_8 ++ table_part_9

/-- Embedding of `InstructionDecoder.decode`: dictionary lookup of
`opcode & 0xFF`; returns `none` for opcodes absent from the table
(the docstring: invalid opcodes yield `None`).  Total — never raises. -/
def decode (opcode : Nat) : Option InstructionInfo :=
  List.lookup (opcode &&& 0xFF) build_instruction_table

/-- Embedding of `InstructionDecoder.is_valid_opcode`. -/
def is_valid_opcode (opcode : Nat) : Bool :=
  (build_instruction_table.map Prod.fst).contains (opcode &&& 0xFF)

/-- Embedding of `InstructionDecoder.get_instruction_count`. -/
def get_instruction_count : Nat := build_instruction_table.length

end Decoder

end Py6502

namespace Py6502

/-- Stable insertion of `x` after all elements whose key is `≤ key x`;
building block for the model of Python `list.sort(key=...)`. -/
def insert_by_key {α : Type} (key : α → Nat) (x : α) : List α → List α
  | [] => [x]
  | y :: ys => if key y ≤ key x then y :: insert_by_key key x ys else x :: y :: ys

/-- Model of Python `list.sort(key=...)`: insertion sort by a natural-number
key (the sources sort only by distinct keys, so any comparison sort agrees). -/
def sort_by_key {α : Type} (key : α → Nat) : List α → List α
  | [] => []
  | x :: xs => insert_by_key key x (sort_by_key key xs)

namespace Core

/-- Interrupt kinds, from the `InterruptType` enum in core/interrupt_types.py. -/
inductive InterruptType where
  | RESET | NMI | IRQ
  deriving DecidableEq, Repr

/-- Embedding of `INTERRUPT_VECTORS` (core/interrupt_types.py). -/
def INTERRUPT_VECTORS : InterruptType → Nat
  | .RESET => 0xFFFC
  | .NMI => 0xFFFA
  | .IRQ => 0xFFFE

/-- Embedding of `INTERRUPT_CYCLES` (core/interrupt_types.py). -/
def INTERRUPT_CYCLES : InterruptType → Nat
  | .RESET => 7
  | .NMI => 7
  | .IRQ => 7

/-- Embedding of `INTERRUPT_PRIORITY` (core/interrupt_types.py); smaller
numbers are higher priority. -/
def INTERRUPT_PRIORITY : InterruptType → Nat
  | .RESET => 1
  | .NMI => 2
  | .IRQ => 3

/-- Embedding of the `InterruptVector` TypedDict (core/interrupt_types.py). -/
structure InterruptVector where
  vector_address : Nat
  interrupt_type : InterruptType
  cycles : Nat
  deriving DecidableEq, Repr

/-- Pending-request state of `InterruptController` (core/interrupt_controller.py,
`__init__`): `_irq_sources`, `_nmi_pending`, `_reset_pending` and
`_nmi_previous_state`.  The statistics, history, hook and informational
`_current_state`/`_servicing_interrupt` fields never influence request
selection or clearing and are omitted from the embedding. -/
structure ControllerState where
  irq_sources : List String
  nmi_pending : Bool
  reset_pending : Bool
  nmi_previous_state : Bool
  deriving DecidableEq, Repr

/-- The freshly constructed controller: no requests pending, NMI line low. -/
def initial_controller : ControllerState := ⟨[], false, false, false⟩

/-- Embedding of `InterruptController.assert_irq`: the Python set
`_irq_sources` is modelled as a duplicate-free list, `add` as guarded cons. -/
def assert_irq (source_id : String) (s : ControllerState) : ControllerState :=
  if source_id ∈ s.irq_sources then s
  else { s with irq_sources := source_id :: s.irq_sources }

/-- Embedding of `InterruptController.deassert_irq` (set `discard`). -/
def deassert_irq (source_id : String) (s : ControllerState) : ControllerState :=
  { s with irq_sources := s.irq_sources.filter (fun x => x ≠ source_id) }

/-- Embedding of `InterruptController.assert_nmi`: latch `nmi_pending` only on
a rising edge (`not _nmi_previous_state and not _nmi_pending`), then record
the line as high. -/
def assert_nmi (s : ControllerState) : ControllerState :=
  let s := if !s.nmi_previous_state && !s.nmi_pending then
             { s with nmi_pending := true } else s
  { s with nmi_previous_state := true }

/-- Embedding of `InterruptController.deassert_nmi`: lowers the line without
touching `nmi_pending`. -/
def deassert_nmi (s : ControllerState) : ControllerState :=
  { s with nmi_previous_state := false }

/-- Embedding of `InterruptController.assert_reset`. -/
def assert_reset (s : ControllerState) : ControllerState :=
  { s with reset_pending := true }

/-- Embedding of `InterruptController.deassert_reset`. -/
def deassert_reset (s : ControllerState) : ControllerState :=
  { s with reset_pending := false }

/-- Embedding of `InterruptController.is_pending`. -/
def is_pending (s : ControllerState) : Bool :=
  s.reset_pending || s.nmi_pending || !s.irq_sources.isEmpty

/-- Embedding of `InterruptController.get_highest_priority_interrupt`:
collect pending kinds, sort by `INTERRUPT_PRIORITY`, return the head. -/
def get_highest_priority_interrupt (s : ControllerState) : Option InterruptType :=
  let pending :=
    (if s.reset_pending then [InterruptType.RESET] else []) ++
    (if s.nmi_pending then [InterruptType.NMI] else []) ++
    (if !s.irq_sources.isEmpty then [InterruptType.IRQ] else [])
  (Py6502.sort_by_key INTERRUPT_PRIORITY pending).head?

/-- Embedding of `InterruptController.get_interrupt_vector`. -/
def get_interrupt_vector (interrupt_type : InterruptType) : InterruptVector :=
  ⟨INTERRUPT_VECTORS interrupt_type, interrupt_type, INTERRUPT_CYCLES interrupt_type⟩

/-- Embedding of `InterruptController._acknowledge_interrupt`: clear the
request of the chosen kind (all IRQ sources for IRQ) and build the vector
info.  The informational `_current_state`/`_servicing_interrupt` updates are
outside the embedded state. -/
def acknowledge_interrupt (interrupt_type : InterruptType) (s : ControllerState) :
    InterruptVector × ControllerState :=
  let s :=
    match interrupt_type with
    | .RESET => { s with reset_pending := false }
    | .NMI => { s with nmi_pending := false }
    | .IRQ => { s with irq_sources := [] }
  (get_interrupt_vector interrupt_type, s)

/-- Embedding of `InterruptController.acknowledge`: select the highest
priority pending interrupt; a masked IRQ (highest priority but
`interrupt_enabled = false`) returns `none` without touching state. -/
def acknowledge (interrupt_enabled : Bool) (s : ControllerState) :
    Option InterruptVector × ControllerState :=
  match get_highest_priority_interrupt s with
  | none => (none, s)
  | some highest_priority =>
    if highest_priority = InterruptType.IRQ ∧ ¬interrupt_enabled then (none, s)
    else
      let (vector_info, s) := acknowledge_interrupt highest_priority s
      (some vector_info, s)

/-- Events of the NMI line protocol used by the edge-discipline claims:
an `assert_nmi` call, a `deassert_nmi` call, or an `acknowledge` call. -/
inductive NmiEvent where
  | assertLine | deassertLine | ack (interrupt_enabled : Bool)
  deriving DecidableEq, Repr

/-- One step of the NMI protocol: dispatch an event to the controller. -/
def nmi_step (e : NmiEvent) (s : ControllerState) : ControllerState :=
  match e with
  | .assertLine => assert_nmi s
  | .deassertLine => deassert_nmi s
  | .ack enabled => (acknowledge enabled s).2

/-- Run a list of NMI protocol events left to right. -/
def nmi_run (l : List NmiEvent) (s : ControllerState) : ControllerState :=
  l.foldl (fun s e => nmi_step e s) s

end Core

end Py6502

namespace Py6502

/-- Pointwise update of a memory function; models a single byte store made
through the `_memory_modifier` callback. -/
def write_mem (m : Nat → Nat) (a v : Nat) : Nat → Nat :=
  fun x => if x = a then v else m x

namespace Handler

open Py6502.Core

/-- CPU-facing state threaded through `InterruptHandler`'s sequence steps
(cpu/interrupt_handler.py): the CPU state dict entries `program_counter`,
`status_register` and `stack_pointer`, the memory reached through the
`_memory_accessor`/`_memory_modifier` callbacks, and the sequence fields
`saved_pc`/`saved_status` of `InterruptSequence`. -/
structure SeqState where
  program_counter : Nat
  status_register : Nat
  stack_pointer : Nat
  mem : Nat → Nat
  saved_pc : Nat
  saved_status : Nat

/-- Embedding of `_start_interrupt_sequence`'s CPU snapshot: `saved_pc` and
`saved_status` capture the program counter and status register. -/
def start_sequence (st : SeqState) : SeqState :=
  { st with saved_pc := st.program_counter, saved_status := st.status_register }

/-- Embedding of `InterruptHandler._push_pch_to_stack`: write the high byte
of `saved_pc` at `0x0100 + S`, then decrement S mod 256 (`(sp - 1) & 0xFF`
is written `(sp + 0xFF) % 0x100`, identical on byte values). -/
def push_pch_to_stack (st : SeqState) : SeqState :=
  let pch := (st.saved_pc >>> 8) &&& 0xFF
  let stack_address := 0x0100 + st.stack_pointer
  { st with mem := write_mem st.mem stack_address pch,
            stack_pointer := (st.stack_pointer + 0xFF) % 0x100 }

/-- Embedding of `InterruptHandler._push_pcl_to_stack`. -/
def push_pcl_to_stack (st : SeqState) : SeqState :=
  let pcl := st.saved_pc &&& 0xFF
  let stack_address := 0x0100 + st.stack_pointer
  { st with mem := write_mem st.mem stack_address pcl,
            stack_pointer := (st.stack_pointer + 0xFF) % 0x100 }

/-- Embedding of `InterruptHandler._push_status_to_stack`: pushes
`saved_status`, clearing the B flag (`status & 0xEF`) only when the
interrupt type is IRQ; every other type pushes the status unchanged. -/
def push_status_to_stack (interrupt_type : InterruptType) (st : SeqState) : SeqState :=
  let status_to_push :=
    if interrupt_type = InterruptType.IRQ then st.saved_status &&& 0xEF
    else st.saved_status
  let stack_address := 0x0100 + st.stack_pointer
  { st with mem := write_mem st.mem stack_address status_to_push,
            stack_pointer := (st.stack_pointer + 0xFF) % 0x100 }

/-- Embedding of `InterruptHandler._set_interrupt_flags`: set I (`|= 0x04`)
and clear D (`&= 0xF7`) on the live status register. -/
def set_interrupt_flags (st : SeqState) : SeqState :=
  { st with status_register := (st.status_register ||| 0x04) &&& 0xF7 }

/-- Embedding of `InterruptHandler._load_vector_low`: read the vector low
byte and store it into the low byte of `saved_pc`. -/
def load_vector_low (vector_address : Nat) (st : SeqState) : SeqState :=
  let vector_low := st.mem vector_address
  { st with saved_pc := (st.saved_pc &&& 0xFF00) ||| vector_low }

/-- Embedding of `InterruptHandler._load_vector_high_and_jump`: read the
vector high byte and set the program counter. -/
def load_vector_high_and_jump (vector_address : Nat) (st : SeqState) : SeqState :=
  let vector_high := st.mem (vector_address + 1)
  let new_pc := (vector_high <<< 8) ||| (st.saved_pc &&& 0xFF)
  { st with program_counter := new_pc }

/-- Embedding of `InterruptHandler._execute_sequence_step`: dispatch on the
cycle number of the 7-cycle sequence.  Cycle 0 only sets the state label;
cycles 1-6 perform the pushes, flag updates and vector loads.  No branch
depends on the interrupt type other than the status push. -/
def execute_sequence_step (interrupt_type : InterruptType) (vector_address : Nat)
    (cycle : Nat) (st : SeqState) : SeqState :=
  match cycle with
  | 0 => st
  | 1 => push_pch_to_stack st
  | 2 => push_pcl_to_stack st
  | 3 => push_status_to_stack interrupt_type st
  | 4 => set_interrupt_flags st
  | 5 => load_vector_low vector_address st
  | 6 => load_vector_high_and_jump vector_address st
  | _ => st

/-- The complete 7-cycle interrupt entry sequence as driven by
`_continue_interrupt_sequence`: snapshot the CPU state
(`_start_interrupt_sequence`), then run cycles 0 through 6. -/
def run_interrupt_sequence (interrupt_type : InterruptType) (vector_address : Nat)
    (st : SeqState) : SeqState :=
  (List.range 7).foldl
    (fun s cycle => execute_sequence_step interrupt_type vector_address cycle s)
    (start_sequence st)

end Handler

end Py6502

namespace Py6502

namespace Memory

/-- A memory-mapped peripheral satisfying the Device protocol
(core/device.py): a name and byte-addressed backing state; `read(offset)`
returns `dev_mem offset` and `write(offset, value)` updates it.  Arbitrary
device side effects are outside the claims verified here. -/
structure Device where
  name : String
  dev_mem : Nat → Nat

/-- Embedding of `Device.read`. -/
def Device.read (d : Device) (offset : Nat) : Nat := d.dev_mem offset

/-- Embedding of `Device.write`. -/
def Device.write (d : Device) (offset value : Nat) : Device :=
  { d with dev_mem := write_mem d.dev_mem offset value }

/-- Embedding of the `DeviceMapping` dataclass (memory/device_mapper.py). -/
structure DeviceMapping where
  device : Device
  start_address : Nat
  end_address : Nat
  name : String
  device_offset : Nat
  read_only : Bool

/-- Embedding of `DeviceMapping.contains_address`. -/
def contains_address (m : DeviceMapping) (address : Nat) : Bool :=
  decide (m.start_address ≤ address ∧ address ≤ m.end_address)

/-- Embedding of `DeviceMapping.overlaps_with`:
`not (end < self.start_address or start > self.end_address)`. -/
def overlaps_with (m : DeviceMapping) (start_a end_a : Nat) : Bool :=
  !(decide (end_a < m.start_address) || decide (start_a > m.end_address))

/-- Embedding of `DeviceMapping.get_device_address`. -/
def get_device_address (m : DeviceMapping) (system_address : Nat) : Nat :=
  (system_address - m.start_address) + m.device_offset

/-- Embedding of `DeviceMapper._find_overlapping_mapping`: first mapping in
list order overlapping the range. -/
def find_overlapping_mapping (mappings : List DeviceMapping) (start_a end_a : Nat) :
    Option DeviceMapping :=
  mappings.find? (fun m => overlaps_with m start_a end_a)

/-- Embedding of `DeviceMapper._find_exact_mapping`. -/
def find_exact_mapping (mappings : List DeviceMapping) (start_a end_a : Nat) :
    Option DeviceMapping :=
  mappings.find? (fun m => decide (m.start_address = start_a ∧ m.end_address = end_a))

/-- Embedding of `DeviceMapper._remove_mapping` reached through
`unmap_device`: `list.remove` deletes the first element equal to the found
mapping, which is the first mapping with the given exact range. -/
def remove_exact (start_a end_a : Nat) : List DeviceMapping → List DeviceMapping
  | [] => []
  | m :: ms =>
    if m.start_address = start_a ∧ m.end_address = end_a then ms
    else m :: remove_exact start_a end_a ms

/-- Embedding of `DeviceMapper._remove_mapping` reached through
`unmap_device_by_name`: the `_name_to_mapping` dict holds the first (and,
by the uniqueness check in `map_device`, only) mapping with the name. -/
def remove_by_name (name : String) : List DeviceMapping → List DeviceMapping
  | [] => []
  | m :: ms => if m.name = name then ms else m :: remove_by_name name ms

/-- Embedding of `DeviceMapper.map_device` (memory/device_mapper.py):
in source order — overlap check, duplicate-name check against the keys of
`_name_to_mapping` (which are exactly the names of `_mappings`), range
validation by `DeviceMapping.__post_init__`, then append and re-sort by
`start_address`.  Each raise is an `Except.error` leaving the table as it
was. -/
def map_device (mappings : List DeviceMapping) (device : Device)
    (start_address end_address : Nat) (name : String)
    (device_offset : Nat) (read_only : Bool) : Except String (List DeviceMapping) :=
  let name := if name = "" then device.name else name
  match find_overlapping_mapping mappings start_address end_address with
  | some existing => .error ("AddressOverlapError: " ++ existing.name)
  | none =>
    if (mappings.map DeviceMapping.name).contains name then
      .error "DeviceMappingError: name already exists"
    else if start_address > end_address then
      .error "ValueError: start address must be <= end address"
    else if end_address > 0xFFFF then
      .error "ValueError: address out of range"
    else
      let mapping : DeviceMapping :=
        ⟨device, start_address, end_address, name, device_offset, read_only⟩
      .ok (Py6502.sort_by_key DeviceMapping.start_address (mappings ++ [mapping]))

/-- Embedding of `DeviceMapper.unmap_device`. -/
def unmap_device (mappings : List DeviceMapping) (start_address end_address : Nat) :
    Except String (List DeviceMapping) :=
  match find_exact_mapping mappings start_address end_address with
  | none => .error "DeviceMappingError: no mapping found for range"
  | some _ => .ok (remove_exact start_address end_address mappings)

/-- Embedding of `DeviceMapper.unmap_device_by_name`. -/
def unmap_device_by_name (mappings : List DeviceMapping) (name : String) :
    Except String (List DeviceMapping) :=
  if (mappings.map DeviceMapping.name).contains name then
    .ok (remove_by_name name mappings)
  else .error "DeviceMappingError: no mapping found with name"

/-- Embedding of the binary-search loop of `DeviceMapper.find_device`.
Python's `right` bound (which may reach -1) is represented by its successor
`r1 = right + 1`, so the loop guard `left <= right` becomes `left < r1` and
`right = mid - 1` becomes `r1 = mid`. -/
def find_device_loop (mappings : List DeviceMapping) (address : Nat)
    (left r1 : Nat) : Option DeviceMapping :=
  if _h : left < r1 then
    let mid := (left + (r1 - 1)) / 2
    match mappings.get? mid with
    | none => none
    | some mapping =>
      if contains_address mapping address then some mapping
      else if address < mapping.start_address then
        find_device_loop mappings address left mid
      else
        find_device_loop mappings address (mid + 1) r1
  else none
termination_by r1 - left
decreasing_by
  · have h1 : (left + (r1 - 1)) / 2 < r1 :=
      (Nat.div_lt_iff_lt_mul (by omega)).mpr (by omega)
    omega
  · have h2 : left ≤ (left + (r1 - 1)) / 2 :=
      (Nat.le_div_iff_mul_le (by omega)).mpr (by omega)
    omega

/-- Embedding of `DeviceMapper.find_device`: binary search from
`left, right = 0, len(mappings) - 1`. -/
def find_device (mappings : List DeviceMapping) (address : Nat) : Option DeviceMapping :=
  find_device_loop mappings address 0 mappings.length

end Memory

end Py6502

namespace Py6502

namespace Memory

/-- Embedding of `AddressSpace.read_word` (memory/address_space.py):
`_validate_word_address` rejects addresses above 0xFFFE with a raise
(modelled as `Except.error`), then two `read_byte` calls combine
little-endian: `low_byte | (high_byte << 8)`. -/
def AddressSpace.read_word (memory : Nat → Nat) (address : Nat) : Except String Nat :=
  if address ≤ 0xFFFE then
    .ok (memory address ||| (memory (address + 1) <<< 8))
  else .error "ValueError: word address must be 0x0000-0xFFFE"

/-- Embedding of `AddressSpace.write_word`: validate address and value, then
`write_byte(address, value & 0xFF)` and
`write_byte(address + 1, (value >> 8) & 0xFF)`.  The embedding models an
address space with no read-only regions configured
(`_read_only_regions` empty), so `_check_write_permission` never raises. -/
def AddressSpace.write_word (memory : Nat → Nat) (address value : Nat) :
    Except String (Nat → Nat) :=
  if address ≤ 0xFFFE then
    if value ≤ 0xFFFF then
      .ok (write_mem (write_mem memory address (value &&& 0xFF))
            (address + 1) ((value >>> 8) &&& 0xFF))
    else .error "ValueError: word value must be 0x0000-0xFFFF"
  else .error "ValueError: word address must be 0x0000-0xFFFE"

/-- State of `MemoryController` (memory/memory_controller.py): the
`DeviceMapper._mappings` routing table, the `AddressSpace._memory` backing
store, and the single-entry last-hit cache `_last_mapping`
(`_last_address_range` is always the range of the cached mapping and needs
no separate field).  Logging, statistics and hooks are omitted. -/
structure ControllerMem where
  mappings : List DeviceMapping
  address_space : Nat → Nat
  last_mapping : Option DeviceMapping

/-- Embedding of `MemoryController._find_device_mapping`: consult the cache;
on a miss run `DeviceMapper.find_device` and refresh the cache. -/
def find_device_mapping (c : ControllerMem) (address : Nat) :
    Option DeviceMapping × ControllerMem :=
  match c.last_mapping with
  | some cached =>
    if cached.start_address ≤ address ∧ address ≤ cached.end_address then
      (some cached, c)
    else
      match find_device c.mappings address with
      | some mapping => (some mapping, { c with last_mapping := some mapping })
      | none => (none, { c with last_mapping := none })
  | none =>
    match find_device c.mappings address with
    | some mapping => (some mapping, { c with last_mapping := some mapping })
    | none => (none, { c with last_mapping := none })

/-- Embedding of `MemoryController.read`: validate the address, route through
`_find_device_mapping` to the device (translating via
`get_device_address`) or to the address space. -/
def MemoryController.read (c : ControllerMem) (address : Nat) :
    Except String (Nat × ControllerMem) :=
  if address ≤ 0xFFFF then
    let (dm, c) := find_device_mapping c address
    match dm with
    | some mapping => .ok (mapping.device.read (get_device_address mapping address), c)
    | none => .ok (c.address_space address, c)
  else .error "InvalidAddressError"

/-- Aliasing helper: update the device of every alias of mapping `m` (the routing
table entry and, when present, the cache entry).  Python mutates the one
shared `Device` object; the embedding updates each copy, identifying the
mapping by its name (unique by the `map_device` check). -/
def update_device_named (name : String) (d : Device) :
    List DeviceMapping → List DeviceMapping
  | [] => []
  | m :: ms =>
    if m.name = name then { m with device := d } :: update_device_named name d ms
    else m :: update_device_named name d ms

/-- Embedding of `MemoryController.write`: validate address and value, check
the read-only flag, then write to the device or the address space. -/
def MemoryController.write (c : ControllerMem) (address value : Nat) :
    Except String ControllerMem :=
  if address ≤ 0xFFFF then
    if value ≤ 0xFF then
      let (dm, c) := find_device_mapping c address
      match dm with
      | some mapping =>
        if mapping.read_only then .error "PermissionError: read-only device"
        else
          let d := mapping.device.write (get_device_address mapping address) value
          .ok { c with
                  mappings := update_device_named mapping.name d c.mappings,
                  last_mapping := c.last_mapping.map
                    (fun lm => if lm.name = mapping.name then { lm with device := d } else lm) }
      | none => .ok { c with address_space := write_mem c.address_space address value }
    else .error "InvalidValueError"
  else .error "InvalidAddressError"

/-- Embedding of `MemoryController.read_word`: reject addresses above 0xFFFE
(`InvalidAddressError`), then `read(address)` and `read(address + 1)`,
combined little-endian. -/
def MemoryController.read_word (c : ControllerMem) (address : Nat) :
    Except String (Nat × ControllerMem) :=
  if address ≤ 0xFFFE then do
    let (low_byte, c) ← MemoryController.read c address
    let (high_byte, c) ← MemoryController.read c (address + 1)
    .ok (low_byte ||| (high_byte <<< 8), c)
  else .error "InvalidAddressError"

/-- Embedding of `MemoryController.write_word`: reject addresses above
0xFFFE and values above 0xFFFF, then write low byte at `address` and high
byte at `address + 1`. -/
def MemoryController.write_word (c : ControllerMem) (address value : Nat) :
    Except String ControllerMem :=
  if address ≤ 0xFFFE then
    if value ≤ 0xFFFF then do
      let c ← MemoryController.write c address (value &&& 0xFF)
      MemoryController.write c (address + 1) ((value >>> 8) &&& 0xFF)
    else .error "InvalidValueError"
  else .error "InvalidAddressError"

/-- Embedding of the `DeviceMapping` dataclass of memory/mmu.py (the
`SystemBus` keeps its own, simpler mapping record without names being
checked for uniqueness). -/
structure BusMapping where
  device : Device
  start_address : Nat
  end_address : Nat
  name : String

/-- Embedding of `SystemBus.map_device` (memory/mmu.py): validate the range,
reject overlaps, then append and sort by `start_address`.  There is no
duplicate-name check in this method. -/
def SystemBus.map_device (mappings : List BusMapping) (device : Device)
    (start_a end_a : Nat) (name : String) : Except String (List BusMapping) :=
  if start_a ≤ end_a ∧ end_a ≤ 0xFFFF then
    match mappings.find? (fun m => !(decide (end_a < m.start_address) ||
                                     decide (start_a > m.end_address))) with
    | some _ => .error "ValueError: address range overlap"
    | none =>
      let mapping : BusMapping :=
        ⟨device, start_a, end_a, if name = "" then device.name else name⟩
      .ok (Py6502.sort_by_key BusMapping.start_address (mappings ++ [mapping]))
  else .error "ValueError: invalid address range"

end Memory

end Py6502

namespace Py6502

namespace Cpu

/-- Embedding of the `CPURegisters` dataclass (cpu/registers.py). -/
structure CPURegisters where
  a : Nat
  x : Nat
  y : Nat
  s : Nat
  pc : Nat
  p : Nat
  deriving DecidableEq, Repr

/-- The dataclass defaults: A=X=Y=0, S=0xFF, PC=0, P=0x34. -/
def initial_registers : CPURegisters := ⟨0, 0, 0, 0xFF, 0, 0x34⟩

/-- Embedding of `CPURegisters.reset`. -/
def registers_reset (_r : CPURegisters) : CPURegisters := ⟨0, 0, 0, 0xFF, 0, 0x34⟩

/-- Operations of `CPURegisters` that mutate register state
(cpu/registers.py): validated setters, the wrapping PC/S arithmetic, the
register transfers and `reset`. -/
inductive RegOp where
  | set_a (value : Nat)
  | set_x (value : Nat)
  | set_y (value : Nat)
  | set_s (value : Nat)
  | set_pc (value : Nat)
  | set_p (value : Nat)
  | increment_pc (amount : Nat)
  | decrement_s
  | increment_s
  | transfer_a_to_x
  | transfer_a_to_y
  | transfer_x_to_a
  | transfer_y_to_a
  | transfer_s_to_x
  | transfer_x_to_s
  | reset
  deriving DecidableEq, Repr

/-- Embedding of the `CPURegisters` methods: each validated setter raises
`ValueError` on an out-of-range argument, leaving the registers unchanged
(modelled as the identity); `increment_pc` masks with `& 0xFFFF`;
`decrement_s`/`increment_s` mask with `& 0xFF` (the Python `(s - 1) & 0xFF`
on a byte value is written `(s + 0xFF) % 0x100`). -/
def apply_reg_op (r : CPURegisters) : RegOp → CPURegisters
  | .set_a value => if value ≤ 0xFF then { r with a := value } else r
  | .set_x value => if value ≤ 0xFF then { r with x := value } else r
  | .set_y value => if value ≤ 0xFF then { r with y := value } else r
  | .set_s value => if value ≤ 0xFF then { r with s := value } else r
  | .set_pc value => if value ≤ 0xFFFF then { r with pc := value } else r
  | .set_p value => if value ≤ 0xFF then { r with p := value } else r
  | .increment_pc amount => { r with pc := (r.pc + amount) &&& 0xFFFF }
  | .decrement_s => { r with s := (r.s + 0xFF) % 0x100 }
  | .increment_s => { r with s := (r.s + 1) &&& 0xFF }
  | .transfer_a_to_x => { r with x := r.a }
  | .transfer_a_to_y => { r with y := r.a }
  | .transfer_x_to_a => { r with a := r.x }
  | .transfer_y_to_a => { r with a := r.y }
  | .transfer_s_to_x => { r with x := r.s }
  | .transfer_x_to_s => { r with s := r.x }
  | .reset => registers_reset r

/-- Embedding of `CPURegisters.get_stack_address`. -/
def get_stack_address (r : CPURegisters) : Nat := 0x0100 + r.s

/-- Register states reachable from construction with the dataclass defaults
by the `CPURegisters` mutators. -/
inductive ReachReg : CPURegisters → Prop where
  | init : ReachReg initial_registers
  | step (r : CPURegisters) (op : RegOp) :
      ReachReg r → ReachReg (apply_reg_op r op)

/-- Embedding of `ProcessorFlags.get_flags_byte` (cpu/flags.py): the status
byte with the unused bit 5 forced to 1. -/
def get_flags_byte (p : Nat) : Nat := p ||| 0x20

/-- Embedding of `ProcessorFlags.update_overflow_add` (cpu/flags.py): mask
the three arguments to bytes, extract the sign bits with `& 0x80`, and
report overflow when both operands share a sign that differs from the
result's sign. -/
def update_overflow_add (operand1 operand2 result : Nat) : Bool :=
  let operand1 := operand1 &&& 0xFF
  let operand2 := operand2 &&& 0xFF
  let result := result &&& 0xFF
  let op1_sign := operand1 &&& 0x80
  let op2_sign := operand2 &&& 0x80
  let result_sign := result &&& 0x80
  decide (op1_sign = op2_sign) && decide (op1_sign ≠ result_sign)

/-- The specification's overflow formula for addition, stated exactly as the
spec writes it: `V = ((a ^ result) & (operand ^ result) & 0x80) != 0`. -/
def overflow_add_formula (a operand result : Nat) : Bool :=
  decide (((a ^^^ result) &&& (operand ^^^ result) &&& 0x80) ≠ 0)

end Cpu

end Py6502

namespace Py6502

/-- Memory image used for exercising the RESET entry sequence: the RESET
vector at 0xFFFC/0xFFFD holds 0x8000 little-endian, all other cells 0. -/
def reset_test_mem : Nat → Nat :=
  fun a => if a = 0xFFFC then 0x00 else if a = 0xFFFD then 0x80 else 0

/-- Concrete pre-RESET CPU state: PC=0x1234, P=0x00, S=0xFF. -/
def reset_test_state : Handler.SeqState :=
  ⟨0x1234, 0x00, 0xFF, reset_test_mem, 0, 0⟩

/-- Memory image used for exercising the NMI entry sequence: the NMI vector
at 0xFFFA/0xFFFB holds 0x9000 little-endian, all other cells 0. -/
def nmi_test_mem : Nat → Nat :=
  fun a => if a = 0xFFFA then 0x00 else if a = 0xFFFB then 0x90 else 0

/-- Concrete pre-NMI CPU state: PC=0x1234, P=0x34 (B flag set), S=0xFF. -/
def nmi_test_state : Handler.SeqState :=
  ⟨0x1234, 0x34, 0xFF, nmi_test_mem, 0, 0⟩

/-- A concrete memory-mapped device that answers 0xAB on every read. -/
def stale_device : Memory.Device := ⟨"io", fun _ => 0xAB⟩

/-- The mapping produced by mapping `stale_device` over 0x1000-0x1FFF. -/
def stale_mapping : Memory.DeviceMapping :=
  ⟨stale_device, 0x1000, 0x1FFF, "io", 0, false⟩

/-- Controller with the device mapped and a cold routing cache. -/
def stale_c0 : Memory.ControllerMem := ⟨[stale_mapping], fun _ => 0, none⟩

/-- Controller after one read inside the mapping: cache warmed. -/
def stale_c1 : Memory.ControllerMem := ⟨[stale_mapping], fun _ => 0, some stale_mapping⟩

/-- Controller after the mapping was unmapped: the routing table is empty
but the cache still holds the removed mapping (nothing in the source
invalidates it). -/
def stale_c2 : Memory.ControllerMem := ⟨[], fun _ => 0, some stale_mapping⟩

/-- Two distinct devices used for the SystemBus duplicate-name experiment. -/
def bus_dev_a : Memory.Device := ⟨"devA", fun _ => 0⟩

/-- Second device for the SystemBus duplicate-name experiment. -/
def bus_dev_b : Memory.Device := ⟨"devB", fun _ => 0⟩

/-- DeviceMapper tables reachable from the empty table through successful
`map_device` / `unmap_device` / `unmap_device_by_name` calls (a failed call
raises before mutating `_mappings`, leaving the table as it was). -/
inductive ReachMapper : List Memory.DeviceMapping → Prop where
  | empty : ReachMapper []
  | map_ok (st st' : List Memory.DeviceMapping) (d : Memory.Device)
      (s e off : Nat) (n : String) (ro : Bool) :
      ReachMapper st → Memory.map_device st d s e n off ro = .ok st' → ReachMapper st'
  | unmap_ok (st st' : List Memory.DeviceMapping) (s e : Nat) :
      ReachMapper st → Memory.unmap_device st s e = .ok st' → ReachMapper st'
  | unmap_name_ok (st st' : List Memory.DeviceMapping) (n : String) :
      ReachMapper st → Memory.unmap_device_by_name st n = .ok st' → ReachMapper st'

/-- Well-formedness of a DeviceMapper table: no two mappings overlap on any
address, and mapping names are unique. -/
def mapper_wf (st : List Memory.DeviceMapping) : Prop :=
  st.Pairwise (fun m1 m2 => Memory.overlaps_with m1 m2.start_address m2.end_address = false) ∧
  (st.map Memory.DeviceMapping.name).Nodup

end Py6502

namespace Py6502

theorem write_mem_same (m : Nat → Nat) (a v : Nat) : write_mem m a v a = v := by
  simp [write_mem]

theorem write_mem_other (m : Nat → Nat) (a v x : Nat) (h : x ≠ a) : write_mem m a v x = m x := by
  simp [write_mem, h]

theorem lookup_isSome_iff_mem_keys {α β : Type} [BEq α] [LawfulBEq α]
    (k : α) (l : List (α × β)) :
    (List.lookup k l).isSome ↔ k ∈ l.map Prod.fst := by
  induction l with
  | nil => simp [List.lookup]
  | cons h t ih =>
    simp [List.lookup]
    split <;> simp_all [beq_iff_eq]

/-- C1 counterexample: opcode 0x02 is not one of the 212 documented W65C02S
opcodes, and `InstructionDecoder.decode` returns no entry for it (`None`)
rather than a 1-byte 1-cycle NOP record, refuting the claim that every
opcode yields a valid entry. -/
theorem decode_undocumented_returns_none : Decoder.decode 0x02 = none := by decide

/-- C1 amended: `decode` is a total function of the opcode byte (`opcode &
0xFF`), the table holds exactly 212 documented opcodes, and `decode`
returns an entry exactly for the documented opcodes — undocumented
positions return `None` (no NOP substitution), and no input raises. -/
theorem decode_documented_exactly :
    Decoder.get_instruction_count = 212 ∧
    ∀ opcode : Nat, (Decoder.decode opcode).isSome ↔
      (opcode &&& 0xFF) ∈ Decoder.build_instruction_table.map Prod.fst := by
  refine ⟨by decide, ?_⟩
  intro opcode
  exact lookup_isSome_iff_mem_keys _ _

end Py6502

namespace Py6502

theorem and_sign_bit (n : Nat) : n &&& 0x80 = if n.testBit 7 then 0x80 else 0 := by
  have h := Nat.and_two_pow n 7
  norm_num at h
  rw [h]
  cases n.testBit 7 <;> simp

theorem and_mask_byte_sign (n : Nat) : (n &&& 0xFF) &&& 0x80 = n &&& 0x80 := by
  have h : (0xFF &&& 0x80 : Nat) = 0x80 := by decide
  rw [Nat.and_assoc, h]

/-- C10: the flag code's same-sign-operands, different-sign-result test for
the addition overflow flag agrees with the specification's formula
`V = ((a ^ result) & (operand ^ result) & 0x80) != 0` on all inputs. -/
theorem update_overflow_add_matches_formula (a operand result : Nat) :
    Cpu.update_overflow_add a operand result = Cpu.overflow_add_formula a operand result := by
  unfold Cpu.update_overflow_add Cpu.overflow_add_formula
  simp only [and_mask_byte_sign]
  simp only [and_sign_bit]
  have hx : ((a ^^^ result) &&& (operand ^^^ result)).testBit 7
      = (((a.testBit 7).xor (result.testBit 7)) && ((operand.testBit 7).xor (result.testBit 7))) := by
    simp [Nat.testBit_and, Nat.testBit_xor]
  rw [hx]
  cases ha : a.testBit 7 <;> cases hb : operand.testBit 7 <;> cases hr : result.testBit 7 <;>
    simp [ha, hb, hr]

end Py6502

namespace Py6502

/-- C6 counterexample: a word read at address 0xFFFF does not wrap its high
byte to 0x0000 — both the address space and the memory controller reject
the access with an error. -/
theorem read_word_at_top_fails :
    Memory.AddressSpace.read_word (fun _ => 0) 0xFFFF
      = .error "ValueError: word address must be 0x0000-0xFFFE" ∧
    (∃ msg, Memory.MemoryController.read_word ⟨[], fun _ => 0, none⟩ 0xFFFF
      = .error msg) :=
  ⟨rfl, "InvalidAddressError", rfl⟩

/-- C6 amended: for addresses 0x0000-0xFFFE, `read_word`/`write_word`
perform two byte accesses in little-endian order (low byte at `address`,
high byte at `address + 1`); an address of 0xFFFF is rejected with an
error by both the address space and the memory controller — the
higher-address byte access never wraps to 0x0000. -/
theorem word_access_little_endian (memory : Nat → Nat) (address value : Nat)
    (haddr : address ≤ 0xFFFE) (hval : value ≤ 0xFFFF) (hlo : memory address < 256) :
    Memory.AddressSpace.read_word memory address
      = .ok (memory address + 256 * memory (address + 1)) ∧
    (∀ m', Memory.AddressSpace.write_word memory address value = .ok m' →
        m' address = value % 256 ∧ m' (address + 1) = value / 256 ∧
        ∀ other, other ≠ address → other ≠ address + 1 → m' other = memory other) ∧
    (∃ msg, Memory.AddressSpace.read_word memory 0xFFFF = .error msg) ∧
    (∃ msg, Memory.AddressSpace.write_word memory 0xFFFF value = .error msg) ∧
    (∃ msg, Memory.MemoryController.read_word ⟨[], memory, none⟩ 0xFFFF = .error msg) ∧
    (∀ c : Memory.ControllerMem, ∃ msg,
        Memory.MemoryController.write_word c 0xFFFF value = .error msg) := by
  refine ⟨?_, ?_, ⟨_, rfl⟩, ⟨_, rfl⟩, ⟨_, rfl⟩, fun c => ⟨_, rfl⟩⟩
  · unfold Memory.AddressSpace.read_word
    rw [if_pos haddr]
    have h8 : memory (address + 1) <<< 8 = 2 ^ 8 * memory (address + 1) := by
      rw [Nat.shiftLeft_eq]; ring
    rw [h8, Nat.lor_comm, ← Nat.mul_add_lt_is_or hlo]
    norm_num [Nat.add_comm]
  · intro m' hm'
    unfold Memory.AddressSpace.write_word at hm'
    rw [if_pos haddr, if_pos hval] at hm'
    cases hm'
    refine ⟨?_, ?_, ?_⟩
    · rw [write_mem_other _ _ _ _ (by omega), write_mem_same]
      have h1 := Nat.and_pow_two_sub_one_eq_mod value 8
      norm_num at h1
      exact h1
    · rw [write_mem_same]
      have h1 := Nat.and_pow_two_sub_one_eq_mod (value >>> 8) 8
      have h2 := Nat.shiftRight_eq_div_pow value 8
      norm_num at h1 h2
      rw [h1, h2]
      exact Nat.mod_eq_of_lt (by omega)
    · intro other h1 h2
      rw [write_mem_other _ _ _ _ h2, write_mem_other _ _ _ _ h1]

end Py6502

namespace Py6502

/-- Witness for `word_access_little_endian`: a concrete little-endian read at
0x1000 from a memory holding 0x34 everywhere. -/
theorem word_access_little_endian_witness :
    Memory.AddressSpace.read_word (fun _ => 0x34) 0x1000 = .ok (0x34 + 256 * 0x34) :=
  (word_access_little_endian (fun _ => 0x34) 0x1000 0 (by decide) (by decide)
    (by decide)).1

/-- C4: `acknowledge` selects the pending interrupt of highest priority in
the order Reset > NMI > IRQ, acknowledges at most one interrupt per call,
clears exactly the chosen request while leaving the other pending requests
unchanged, and returns `none` without touching any pending state when the
highest-priority pending interrupt is IRQ but interrupts are disabled. -/
theorem acknowledge_priority_spec (s : Core.ControllerState) (enabled : Bool) :
    (s.reset_pending = true →
      Core.acknowledge enabled s =
        (some (Core.get_interrupt_vector .RESET), { s with reset_pending := false })) ∧
    (s.reset_pending = false → s.nmi_pending = true →
      Core.acknowledge enabled s =
        (some (Core.get_interrupt_vector .NMI), { s with nmi_pending := false })) ∧
    (s.reset_pending = false → s.nmi_pending = false → s.irq_sources ≠ [] →
      enabled = true →
      Core.acknowledge enabled s =
        (some (Core.get_interrupt_vector .IRQ), { s with irq_sources := [] })) ∧
    (s.reset_pending = false → s.nmi_pending = false → s.irq_sources ≠ [] →
      enabled = false →
      Core.acknowledge enabled s = (none, s)) ∧
    (s.reset_pending = false → s.nmi_pending = false → s.irq_sources = [] →
      Core.acknowledge enabled s = (none, s)) := by
  obtain ⟨irq, nmi, rst, prev⟩ := s
  cases rst <;> cases nmi <;> cases irq <;> cases enabled <;>
    simp [Core.acknowledge, Core.get_highest_priority_interrupt,
      Core.acknowledge_interrupt, Core.get_interrupt_vector, Core.INTERRUPT_PRIORITY,
      sort_by_key, insert_by_key]

/-- Witness for `acknowledge_priority_spec`: with an IRQ source and an NMI
both pending (no reset), acknowledging picks the NMI and clears only it. -/
theorem acknowledge_priority_spec_witness :
    Core.acknowledge true ⟨["timer"], true, false, true⟩ =
      (some (Core.get_interrupt_vector .NMI), ⟨["timer"], false, false, true⟩) :=
  (acknowledge_priority_spec ⟨["timer"], true, false, true⟩ true).2.1 rfl rfl

end Py6502

namespace Py6502

theorem acknowledge_nmi_fields (enabled : Bool) (s : Core.ControllerState) :
    ((Core.acknowledge enabled s).2.nmi_pending = s.nmi_pending ∨
      (Core.acknowledge enabled s).2.nmi_pending = false) ∧
    (Core.acknowledge enabled s).2.nmi_previous_state = s.nmi_previous_state := by
  obtain ⟨irq, nmi, rst, prev⟩ := s
  cases rst <;> cases nmi <;> cases irq <;> cases enabled <;>
    simp [Core.acknowledge, Core.get_highest_priority_interrupt,
      Core.acknowledge_interrupt, Core.get_interrupt_vector, Core.INTERRUPT_PRIORITY,
      sort_by_key, insert_by_key]

theorem nmi_no_relatch_aux (l : List Core.NmiEvent) :
    ∀ s : Core.ControllerState, s.nmi_pending = false → s.nmi_previous_state = true →
      (∀ e ∈ l, e ≠ Core.NmiEvent.deassertLine) →
      (Core.nmi_run l s).nmi_pending = false ∧
      (Core.nmi_run l s).nmi_previous_state = true := by
  induction l with
  | nil => intro s h1 h2 _; exact ⟨h1, h2⟩
  | cons e t ih =>
    intro s h1 h2 hl
    have he := hl e (List.mem_cons_self e t)
    have ht : ∀ e ∈ t, e ≠ Core.NmiEvent.deassertLine :=
      fun x hx => hl x (List.mem_cons_of_mem e hx)
    cases e with
    | assertLine =>
      refine ih _ ?_ ?_ ht <;> simp [Core.nmi_run, Core.nmi_step, Core.assert_nmi, h1, h2]
    | deassertLine => exact absurd rfl he
    | ack enabled =>
      have hf := acknowledge_nmi_fields enabled s
      refine ih _ ?_ ?_ ht
      · show (Core.acknowledge enabled s).2.nmi_pending = false
        rcases hf.1 with h | h
        · rw [h, h1]
        · exact h
      · show (Core.acknowledge enabled s).2.nmi_previous_state = true
        rw [hf.2, h2]

/-- C5: NMI edge discipline of the interrupt controller — `nmi_pending`
latches only on an `assert_nmi` from a low line (or stays latched),
`deassert_nmi` never clears a latched NMI, no sequence of asserts and
acknowledges without an intervening `deassert_nmi` can latch a new NMI once
the line is high and the pending bit is clear (as after an acknowledge),
and a `deassert_nmi` followed by `assert_nmi` latches exactly one new
pending NMI. -/
theorem nmi_edge_discipline :
    (∀ s : Core.ControllerState,
      (Core.nmi_step .assertLine s).nmi_pending = true →
        s.nmi_pending = true ∨ s.nmi_previous_state = false) ∧
    (∀ s : Core.ControllerState,
      (Core.nmi_step .deassertLine s).nmi_pending = s.nmi_pending) ∧
    (∀ (s : Core.ControllerState) (l : List Core.NmiEvent),
      s.nmi_pending = false → s.nmi_previous_state = true →
      (∀ e ∈ l, e ≠ Core.NmiEvent.deassertLine) →
      (Core.nmi_run l s).nmi_pending = false) ∧
    (∀ s : Core.ControllerState, s.nmi_pending = false →
      (Core.nmi_step .assertLine (Core.nmi_step .deassertLine s)).nmi_pending = true) := by
  refine ⟨?_, ?_, ?_, ?_⟩
  · intro s h
    by_cases hp : s.nmi_pending = true
    · exact Or.inl hp
    · right
      by_cases hl : s.nmi_previous_state = false
      · exact hl
      · exfalso
        simp [Core.nmi_step, Core.assert_nmi,
          eq_true_of_ne_false hl, Bool.not_eq_true] at h
        simp [h] at hp
  · intro s; simp [Core.nmi_step, Core.deassert_nmi]
  · intro s l h1 h2 hl
    exact (nmi_no_relatch_aux l s h1 h2 hl).1
  · intro s h
    simp [Core.nmi_step, Core.deassert_nmi, Core.assert_nmi, h]

/-- Witness for `nmi_edge_discipline`: after an assert and an acknowledge,
two further asserts and another acknowledge without a deassert leave no NMI
pending. -/
theorem nmi_edge_discipline_witness :
    (Core.nmi_run [.assertLine, .ack true, .assertLine]
      ⟨[], false, false, true⟩).nmi_pending = false :=
  nmi_edge_discipline.2.2.1 ⟨[], false, false, true⟩ [.assertLine, .ack true, .assertLine]
    rfl rfl (by decide)

end Py6502

namespace Py6502

theorem and_mask16_eq_mod (n : Nat) : n &&& 0xFFFF = n % 0x10000 := by
  have h := Nat.and_pow_two_sub_one_eq_mod n 16
  norm_num at h
  exact h

theorem and_mask8_eq_mod (n : Nat) : n &&& 0xFF = n % 0x100 := by
  have h := Nat.and_pow_two_sub_one_eq_mod n 8
  norm_num at h
  exact h

theorem reach_reg_bounds (r : Cpu.CPURegisters) (h : Cpu.ReachReg r) :
    r.a ≤ 0xFF ∧ r.x ≤ 0xFF ∧ r.y ≤ 0xFF ∧ r.s ≤ 0xFF ∧ r.p ≤ 0xFF ∧ r.pc ≤ 0xFFFF := by
  induction h with
  | init => decide
  | step r op _ ih =>
    obtain ⟨ha, hx, hy, hs, hp, hpc⟩ := ih
    cases op <;>
      simp_all [Cpu.apply_reg_op, Cpu.registers_reset, and_mask16_eq_mod, and_mask8_eq_mod] <;>
      first
        | omega
        | (split <;> simp_all)

/-- C9: in every reachable register state, A, X, Y, S and P are bytes and PC
is a 16-bit value; `increment_pc` wraps mod 65536 and
`decrement_s`/`increment_s` wrap mod 256; the derived stack address always
lies in 0x0100-0x01FF; and bit 5 of the status byte read through
`get_flags_byte` is always 1. -/
theorem registers_reachable_invariants (r : Cpu.CPURegisters) (h : Cpu.ReachReg r) :
    (r.a ≤ 0xFF ∧ r.x ≤ 0xFF ∧ r.y ≤ 0xFF ∧ r.s ≤ 0xFF ∧ r.p ≤ 0xFF ∧ r.pc ≤ 0xFFFF) ∧
    (0x0100 ≤ Cpu.get_stack_address r ∧ Cpu.get_stack_address r ≤ 0x01FF) ∧
    (Cpu.get_flags_byte r.p).testBit 5 = true ∧
    (∀ amount, (Cpu.apply_reg_op r (.increment_pc amount)).pc = (r.pc + amount) % 0x10000) ∧
    (Cpu.apply_reg_op r .decrement_s).s = (r.s + 0xFF) % 0x100 ∧
    (Cpu.apply_reg_op r .increment_s).s = (r.s + 1) % 0x100 := by
  have hb := reach_reg_bounds r h
  refine ⟨hb, ?_, ?_, ?_, rfl, ?_⟩
  · unfold Cpu.get_stack_address
    omega
  · unfold Cpu.get_flags_byte
    have h5 : (0x20 : Nat).testBit 5 = true := by decide
    simp [Nat.testBit_or, h5]
  · intro amount
    simp [Cpu.apply_reg_op, and_mask16_eq_mod]
  · simp [Cpu.apply_reg_op, and_mask8_eq_mod]

/-- Witness for `registers_reachable_invariants`: the freshly constructed
register file (A=X=Y=0, S=0xFF, PC=0, P=0x34) is reachable and in bounds. -/
theorem registers_reachable_invariants_witness :
    Cpu.initial_registers.a ≤ 0xFF ∧ Cpu.initial_registers.x ≤ 0xFF ∧
    Cpu.initial_registers.y ≤ 0xFF ∧ Cpu.initial_registers.s ≤ 0xFF ∧
    Cpu.initial_registers.p ≤ 0xFF ∧ Cpu.initial_registers.pc ≤ 0xFFFF :=
  (registers_reachable_invariants Cpu.initial_registers Cpu.ReachReg.init).1

end Py6502

namespace Py6502

/-- C2 counterexample: running the embedded 7-cycle RESET entry sequence
from PC=0x1234, P=0x00, S=0xFF (RESET vector 0x8000) leaves S=0xFC — not
0xFD — with status 0x04 (bit 5 clear, so `P |= 0x24` does not hold), and
pushes the PC high byte 0x12 into stack page address 0x01FF (so bytes are
pushed during RESET); only the PC update matches the claim. -/
theorem reset_sequence_counterexample :
    (Handler.run_interrupt_sequence .RESET 0xFFFC reset_test_state).stack_pointer = 0xFC ∧
    (Handler.run_interrupt_sequence .RESET 0xFFFC reset_test_state).stack_pointer ≠ 0xFD ∧
    (Handler.run_interrupt_sequence .RESET 0xFFFC reset_test_state).status_register = 0x04 ∧
    ((Handler.run_interrupt_sequence .RESET 0xFFFC reset_test_state).status_register
      &&& 0x24) ≠ 0x24 ∧
    (Handler.run_interrupt_sequence .RESET 0xFFFC reset_test_state).mem 0x01FF = 0x12 ∧
    reset_test_state.mem 0x01FF = 0x00 ∧
    (Handler.run_interrupt_sequence .RESET 0xFFFC reset_test_state).program_counter
      = 0x8000 := by
  refine ⟨?_, ?_, ?_, ?_, ?_, ?_, ?_⟩ <;> decide

end Py6502

namespace Py6502

theorem low_byte_of_patched (x lo : Nat) :
    ((x &&& 0xFF00) ||| lo) &&& 0xFF = lo &&& 0xFF := by
  apply Nat.eq_of_testBit_eq
  intro i
  simp only [Nat.testBit_and, Nat.testBit_or]
  by_cases hi : i < 8
  · have hx : (0xFF00 : Nat).testBit i = false := by interval_cases i <;> decide
    simp [hx]
  · have hf : (0xFF : Nat).testBit i = false := by
      apply Nat.testBit_lt_two_pow
      calc (0xFF : Nat) < 2 ^ 8 := by norm_num
        _ ≤ 2 ^ i := Nat.pow_le_pow_right (by norm_num) (by omega)
    simp [hf]

/-- C2 amended: the RESET entry sequence behaves like the other interrupt
entries — it pushes the PC high byte at 0x0100+S, the PC low byte at
0x0100+S-1 and the unmodified status byte at 0x0100+S-2 (mod-256 stack
arithmetic), leaves S decremented by 3 (not forced to 0xFD), sets I and
clears D in P without touching bit 5, and loads PC from the little-endian
word at 0xFFFC/0xFFFD. -/
theorem reset_sequence_behaviour (st : Handler.SeqState) (hsp : st.stack_pointer < 256) :
    (Handler.run_interrupt_sequence .RESET 0xFFFC st).stack_pointer
      = (st.stack_pointer + 253) % 256 ∧
    (Handler.run_interrupt_sequence .RESET 0xFFFC st).status_register
      = (st.status_register ||| 0x04) &&& 0xF7 ∧
    (Handler.run_interrupt_sequence .RESET 0xFFFC st).program_counter
      = (st.mem 0xFFFD <<< 8) ||| (st.mem 0xFFFC &&& 0xFF) ∧
    (Handler.run_interrupt_sequence .RESET 0xFFFC st).mem (0x0100 + st.stack_pointer)
      = (st.program_counter >>> 8) &&& 0xFF ∧
    (Handler.run_interrupt_sequence .RESET 0xFFFC st).mem
        (0x0100 + (st.stack_pointer + 255) % 256)
      = st.program_counter &&& 0xFF ∧
    (Handler.run_interrupt_sequence .RESET 0xFFFC st).mem
        (0x0100 + (st.stack_pointer + 254) % 256)
      = st.status_register := by
  have hrun : Handler.run_interrupt_sequence .RESET 0xFFFC st
      = Handler.load_vector_high_and_jump 0xFFFC (Handler.load_vector_low 0xFFFC
          (Handler.set_interrupt_flags (Handler.push_status_to_stack .RESET
            (Handler.push_pcl_to_stack (Handler.push_pch_to_stack
              (Handler.start_sequence st)))))) := rfl
  rw [hrun]
  simp only [Handler.start_sequence, Handler.push_pch_to_stack,
    Handler.push_pcl_to_stack, Handler.push_status_to_stack,
    Handler.set_interrupt_flags, Handler.load_vector_low,
    Handler.load_vector_high_and_jump]
  simp only [reduceCtorEq, if_false]
  refine ⟨by omega, trivial, ?_, ?_, ?_, ?_⟩
  · rw [write_mem_other _ _ _ 0xFFFC (by omega), write_mem_other _ _ _ 0xFFFC (by omega),
      write_mem_other _ _ _ 0xFFFC (by omega),
      write_mem_other _ _ _ 0xFFFD (by omega), write_mem_other _ _ _ 0xFFFD (by omega),
      write_mem_other _ _ _ 0xFFFD (by omega), low_byte_of_patched]
  · rw [write_mem_other _ _ _ _ (by omega), write_mem_other _ _ _ _ (by omega),
      write_mem_same]
  · rw [write_mem_other _ _ _ _ (by omega), write_mem_same]
  · have h3 : (256 : Nat) + ((st.stack_pointer + 255) % 256 + 255) % 256
        = 256 + (st.stack_pointer + 254) % 256 := by omega
    rw [← h3, write_mem_same]

/-- Witness for `reset_sequence_behaviour`: the concrete pre-RESET state
with S=0xFF ends with S=0xFC. -/
theorem reset_sequence_behaviour_witness :
    (Handler.run_interrupt_sequence .RESET 0xFFFC reset_test_state).stack_pointer
      = (reset_test_state.stack_pointer + 253) % 256 :=
  (reset_sequence_behaviour reset_test_state (by decide)).1

end Py6502

namespace Py6502

/-- C3 failing input: an NMI entry from P=0x34 (B flag set), S=0xFF,
PC=0x1234 (NMI vector 0x9000).  The sequence pushes the status byte
unchanged — 0x34, with the B bit (0x10) still set — at 0x01FD, where the
claim requires B cleared (0x24): `_push_status_to_stack` clears B only for
IRQ, not for NMI.  The remaining NMI-entry effects (PC bytes pushed, S
decremented by 3, I set and D cleared, PC loaded from the vector) do hold
at this input. -/
theorem nmi_entry_pushes_break_flag_set :
    (Handler.run_interrupt_sequence .NMI 0xFFFA nmi_test_state).mem 0x01FD = 0x34 ∧
    ((0x34 : Nat) &&& 0x10 ≠ 0) ∧
    (Handler.run_interrupt_sequence .NMI 0xFFFA nmi_test_state).mem 0x01FD ≠ 0x24 ∧
    (Handler.run_interrupt_sequence .NMI 0xFFFA nmi_test_state).mem 0x01FF = 0x12 ∧
    (Handler.run_interrupt_sequence .NMI 0xFFFA nmi_test_state).mem 0x01FE = 0x34 ∧
    (Handler.run_interrupt_sequence .NMI 0xFFFA nmi_test_state).stack_pointer = 0xFC ∧
    (Handler.run_interrupt_sequence .NMI 0xFFFA nmi_test_state).status_register = 0x34 ∧
    (Handler.run_interrupt_sequence .NMI 0xFFFA nmi_test_state).program_counter
      = 0x9000 := by
  refine ⟨?_, ?_, ?_, ?_, ?_, ?_, ?_, ?_⟩ <;> decide

end Py6502

namespace Py6502

/-- C7 failing input: map a device over 0x1000-0x1FFF, read 0x1000 (warming
the single-entry cache), unmap that mapping, read 0x1000 again.  Nothing in
the source invalidates `_last_mapping` on `unmap`, so the second read still
routes to the removed device (0xAB) although the routing table is empty and
the claim requires routing to the backing store (0x00). -/
theorem stale_cache_after_unmap :
    Memory.map_device [] stale_device 0x1000 0x1FFF "io" 0 false = .ok [stale_mapping] ∧
    Memory.MemoryController.read stale_c0 0x1000 = .ok (0xAB, stale_c1) ∧
    Memory.unmap_device stale_c1.mappings 0x1000 0x1FFF = .ok [] ∧
    Memory.MemoryController.read stale_c2 0x1000 = .ok (0xAB, stale_c2) ∧
    Memory.find_device stale_c2.mappings 0x1000 = none ∧
    stale_c2.address_space 0x1000 = 0x00 := by
  refine ⟨?_, ?_, ?_, ?_, ?_, rfl⟩
  · rfl
  · show Memory.MemoryController.read stale_c0 0x1000 = .ok (0xAB, stale_c1)
    unfold Memory.MemoryController.read Memory.find_device_mapping
    simp only [stale_c0, stale_c1, Memory.find_device]
    rw [Memory.find_device_loop]
    simp [stale_mapping, stale_device, Memory.contains_address, Memory.get_device_address,
      Memory.Device.read]
  · rfl
  · rfl
  · show Memory.find_device [] 0x1000 = none
    unfold Memory.find_device
    rw [Memory.find_device_loop]
    simp

end Py6502

namespace Py6502

theorem insert_by_key_perm {α : Type} (key : α → Nat) (x : α) (l : List α) :
    (insert_by_key key x l).Perm (x :: l) := by
  induction l with
  | nil => exact List.Perm.refl _
  | cons y ys ih =>
    unfold insert_by_key
    split
    · exact (ih.cons y).trans (List.Perm.swap x y ys)
    · exact List.Perm.refl _

theorem sort_by_key_perm {α : Type} (key : α → Nat) (l : List α) :
    (sort_by_key key l).Perm l := by
  induction l with
  | nil => exact List.Perm.refl _
  | cons x xs ih =>
    exact (insert_by_key_perm key x (sort_by_key key xs)).trans (ih.cons x)

theorem remove_exact_sublist (s e : Nat) (l : List Memory.DeviceMapping) :
    (Memory.remove_exact s e l).Sublist l := by
  induction l with
  | nil => simp [Memory.remove_exact]
  | cons m ms ih =>
    unfold Memory.remove_exact
    split
    · exact List.sublist_cons_self m ms
    · exact ih.cons₂ m

theorem remove_by_name_sublist (n : String) (l : List Memory.DeviceMapping) :
    (Memory.remove_by_name n l).Sublist l := by
  induction l with
  | nil => simp [Memory.remove_by_name]
  | cons m ms ih =>
    unfold Memory.remove_by_name
    split
    · exact List.sublist_cons_self m ms
    · exact ih.cons₂ m

theorem overlaps_symm :
    Symmetric (fun m1 m2 : Memory.DeviceMapping =>
      Memory.overlaps_with m1 m2.start_address m2.end_address = false) := by
  intro m1 m2 h
  simp [Memory.overlaps_with] at h ⊢
  omega

theorem mapper_wf_sublist {st st' : List Memory.DeviceMapping}
    (hsub : st'.Sublist st) (hwf : mapper_wf st) : mapper_wf st' :=
  ⟨hwf.1.sublist hsub, hwf.2.sublist (hsub.map Memory.DeviceMapping.name)⟩

theorem mapper_wf_map_ok {st st' : List Memory.DeviceMapping} {d : Memory.Device}
    {s e off : Nat} {n : String} {ro : Bool} (hwf : mapper_wf st)
    (h : Memory.map_device st d s e n off ro = .ok st') : mapper_wf st' := by
  unfold Memory.map_device at h
  set nm := if n = "" then d.name else n with hnm
  rcases hfind : Memory.find_overlapping_mapping st s e with _ | m
  · rw [hfind] at h
    simp only at h
    rcases hcon : (st.map Memory.DeviceMapping.name).contains nm with _ | _
    · rw [hcon] at h
      simp only [Bool.false_eq_true, if_false] at h
      split at h
      · exact absurd h (by simp)
      · split at h
        · exact absurd h (by simp)
        · cases h
          have hperm := sort_by_key_perm Memory.DeviceMapping.start_address
            (st ++ [⟨d, s, e, nm, off, ro⟩])
          constructor
          · refine (hperm.pairwise_iff (fun hab => overlaps_symm hab)).mpr ?_
            rw [List.pairwise_append]
            refine ⟨hwf.1, List.pairwise_singleton _ _, ?_⟩
            intro a ha b hb
            rw [List.mem_singleton] at hb
            subst hb
            have := List.find?_eq_none.mp hfind a ha
            simpa using this
          · refine ((hperm.map Memory.DeviceMapping.name).nodup_iff).mpr ?_
            rw [List.map_append]
            simp only [List.map_cons, List.map_nil]
            rw [List.nodup_append]
            refine ⟨hwf.2, List.nodup_singleton _, ?_⟩
            intro a ha hb
            rw [List.mem_singleton] at hb
            subst hb
            exact absurd ha (by simpa using hcon)
    · rw [hcon] at h
      simp at h
  · rw [hfind] at h
    simp at h

theorem reach_mapper_wf (st : List Memory.DeviceMapping) (h : ReachMapper st) :
    mapper_wf st := by
  induction h with
  | empty => exact ⟨List.Pairwise.nil, List.nodup_nil⟩
  | map_ok st st' d s e off n ro _ hok ih => exact mapper_wf_map_ok ih hok
  | unmap_ok st st' s e _ hok ih =>
    unfold Memory.unmap_device at hok
    split at hok
    · simp at hok
    · cases hok
      exact mapper_wf_sublist (remove_exact_sublist s e st) ih
  | unmap_name_ok st st' n _ hok ih =>
    unfold Memory.unmap_device_by_name at hok
    split at hok
    · cases hok
      exact mapper_wf_sublist (remove_by_name_sublist n st) ih
    · simp at hok

end Py6502

namespace Py6502

/-- C8 counterexample: `SystemBus.map_device` (memory/mmu.py) — one of the
claim's cited sources — accepts a second mapping under an already-used name
when the ranges are disjoint, instead of failing with an error. -/
theorem systembus_accepts_duplicate_names :
    Memory.SystemBus.map_device [] bus_dev_a 0x0000 0x000F "shared"
      = .ok [⟨bus_dev_a, 0x0000, 0x000F, "shared"⟩] ∧
    Memory.SystemBus.map_device [⟨bus_dev_a, 0x0000, 0x000F, "shared"⟩]
        bus_dev_b 0x0010 0x001F "shared"
      = .ok [⟨bus_dev_a, 0x0000, 0x000F, "shared"⟩,
             ⟨bus_dev_b, 0x0010, 0x001F, "shared"⟩] :=
  ⟨rfl, rfl⟩

/-- C8 amended: `DeviceMapper.map_device` fails with an error whenever the
requested range overlaps an existing mapping or the (defaulted) name is
already in use — raising before any mutation, so the table is unchanged —
and consequently every DeviceMapper table reachable through successful
map/unmap calls has pairwise non-overlapping mappings and unique names.
`SystemBus.map_device`, however, rejects only overlapping ranges; it
accepts duplicate names (see the counterexample). -/
theorem mapper_rejects_and_preserves (st : List Memory.DeviceMapping)
    (d : Memory.Device) (s e off : Nat) (n : String) (ro : Bool) :
    ((Memory.find_overlapping_mapping st s e).isSome →
      ∃ msg, Memory.map_device st d s e n off ro = .error msg) ∧
    (Memory.find_overlapping_mapping st s e = none →
      (st.map Memory.DeviceMapping.name).contains (if n = "" then d.name else n) = true →
      ∃ msg, Memory.map_device st d s e n off ro = .error msg) ∧
    (∀ st1 : List Memory.DeviceMapping, ReachMapper st1 → mapper_wf st1) := by
  refine ⟨?_, ?_, reach_mapper_wf⟩
  · intro hsome
    unfold Memory.map_device
    rcases hfind : Memory.find_overlapping_mapping st s e with _ | m
    · rw [hfind] at hsome; simp at hsome
    · exact ⟨_, rfl⟩
  · intro hnone hcon
    unfold Memory.map_device
    rw [hnone]
    simp only [hcon]
    exact ⟨"DeviceMappingError: name already exists", by simp⟩

/-- Witness for `mapper_rejects_and_preserves`: mapping a second device over
the already-mapped range 0x1000-0x1FFF is rejected, and the singleton table
reached by the first map is well-formed. -/
theorem mapper_rejects_and_preserves_witness :
    (∃ msg, Memory.map_device [stale_mapping] bus_dev_a 0x1800 0x2000 "ram" 0 false
      = .error msg) ∧ mapper_wf [stale_mapping] := by
  constructor
  · exact (mapper_rejects_and_preserves [stale_mapping] bus_dev_a 0x1800 0x2000 0
      "ram" false).1 rfl
  · exact (mapper_rejects_and_preserves [] bus_dev_a 0 0 0 "" false).2.2 [stale_mapping]
      (ReachMapper.map_ok [] [stale_mapping] stale_device 0x1000 0x1FFF 0 "io" false
        ReachMapper.empty rfl)

end Py6502
